import Mathlib

/-!
Verification of the WorkTrack-Pro time-clock service (src/app.py).

The embedding models the in-memory collections (`users`, `time_entries`,
`notes`) together with their durable copies (the JSON files rewritten by
`save_data`).  Timestamps are exact rationals (seconds); a `datetime` value
`d` is represented by its epoch offset, its calendar day by `dayOf`
(`d.date()` / `strftime` of the source), and Python's `round(x, 2)` by
`round2` (round half to even on exact rationals).  The rendered audit-note
string built by the f-strings of the source is represented by `NoteText`,
which records exactly the values the source interpolates into the string.
Fresh uuids and `datetime.now()` are supplied as arguments (`newId`,
`now`).
-/

attribute [local semireducible] Rat.sub Rat.add Rat.mul Rat.inv

inductive Role where
  | ADMIN
  | TIMEKEEPER
  | worker
  deriving DecidableEq, Repr

structure User where
  id : Nat
  name : String
  role : Role
  is_suspended : Bool
  suspension_notes : List Nat
  deriving DecidableEq, Repr

structure TimeEntry where
  id : Nat
  userId : Nat
  loginTime : ℚ
  logoutTime : Option ℚ
  totalHours : ℚ
  date : ℤ
  edited : Bool
  lastModified : ℚ
  editNotes : List Nat
  deriving DecidableEq, Repr

inductive EntityType where
  | time_entry
  | user_suspension
  deriving DecidableEq, Repr

/-- The data interpolated into the rendered note string by the source's
f-strings: the per-field before/after snapshot for a time-entry change
(`logout` and `edit_time_entry`), or the before/after suspension status and
role for `suspend_user`. -/
inductive NoteText where
  | entryChange (action editorName reason : String)
      (beforeLogin : ℚ) (beforeLogout : Option ℚ) (beforeHours : ℚ)
      (afterLogin : ℚ) (afterLogout : Option ℚ) (afterHours : ℚ)
  | suspensionChange (action editorName reason : String)
      (beforeSuspended : Bool) (beforeRole : Role)
      (afterSuspended : Bool) (afterRole : Role)
  deriving DecidableEq, Repr

structure Note where
  id : Nat
  entityId : Nat
  entityType : EntityType
  timestamp : ℚ
  editor : String
  note : NoteText
  deriving DecidableEq, Repr

/-- The whole process state: the three global in-memory lists plus the
current contents of the three JSON files (updated by `save_data`). -/
structure AppState where
  users : List User
  time_entries : List TimeEntry
  notes : List Note
  saved_users : List User
  saved_time_entries : List TimeEntry
  saved_notes : List Note
  deriving DecidableEq, Repr

/-- Floor of a rational, written directly on the numerator and denominator
so that it evaluates by kernel reduction (`ratFloor_eq_floor` below equates
it with `Int.floor`). -/
def ratFloor (q : ℚ) : ℤ := q.num / q.den

/-- Round half to even of a rational, as Python's `round` does on exact
values. -/
def rhe (q : ℚ) : ℤ :=
  let f : ℤ := ratFloor q
  let r : ℚ := q - f
  if r < 1/2 then f
  else if 1/2 < r then f + 1
  else if f % 2 = 0 then f else f + 1

/-- Python's `round(q, 2)`. -/
def round2 (q : ℚ) : ℚ := (rhe (q * 100) : ℚ) / 100

/-- The calendar day of a timestamp (`datetime.date()` /
`strftime('%Y-%m-%d')`), as a day count. -/
def dayOf (t : ℚ) : ℤ := ratFloor (t / 86400)

/-- In-place mutation of the first list element satisfying `p`: the effect
of Python mutating the dict returned by `next((x for x in xs if p x), None)`
while it sits inside the list. -/
def updateFirst {α : Type} (p : α → Bool) (f : α → α) : List α → List α
  | [] => []
  | x :: xs => if p x then f x :: xs else x :: updateFirst p f xs

/-- Python truthiness failure of an optional note string
(`not edit_note_content`): absent or the empty string. -/
def noteMissing : Option String → Bool
  | none => true
  | some t => decide (t = "")

/-- `not note_content or not note_content.strip()` of the source: absent,
or empty after stripping whitespace — that is, every character of the
string is whitespace. -/
def noteBlank : Option String → Bool
  | none => true
  | some t => t.toList.all Char.isWhitespace

/-- `/clock_in` (src/app.py lines 203-239).  Returns the HTTP status and
the state after the call. -/
def clock_in (s : AppState) (user_id : Nat) (now : ℚ) (newId : Nat) :
    Nat × AppState :=
  match s.users.find? (fun u => decide (u.id = user_id)) with
  | none => (404, s)
  | some user =>
    if user.is_suspended then (403, s)
    else
      match s.time_entries.find?
          (fun e => decide (e.userId = user_id) && e.logoutTime.isNone) with
      | some _ => (400, s)
      | none =>
        let new_entry : TimeEntry :=
          { id := newId, userId := user_id, loginTime := now,
            logoutTime := none, totalHours := 0, date := dayOf now,
            edited := false, lastModified := now, editNotes := [] }
        let entries := s.time_entries ++ [new_entry]
        (200, { s with time_entries := entries,
                       saved_time_entries := entries })

/-- `/clock_out` (src/app.py lines 241-301), including the same-day
consolidation rule. -/
def clock_out (s : AppState) (user_id : Nat) (now : ℚ) : Nat × AppState :=
  match s.users.find? (fun u => decide (u.id = user_id)) with
  | none => (404, s)
  | some _user =>
    match s.time_entries.find?
        (fun e => decide (e.userId = user_id) && e.logoutTime.isNone) with
    | none => (400, s)
    | some active_entry =>
      let current_session_hours :=
        round2 ((now - active_entry.loginTime) / 3600)
      let today := dayOf now
      let todayPred : TimeEntry → Bool := fun e =>
        decide (e.userId = user_id) && decide (e.date = today) &&
          e.logoutTime.isSome && decide (dayOf e.loginTime = today)
      match s.time_entries.find? todayPred with
      | some _existing =>
        let entries1 := updateFirst todayPred
          (fun e =>
            { e with
              totalHours := round2 (e.totalHours + current_session_hours),
              logoutTime := some now, lastModified := now })
          s.time_entries
        let entries2 := entries1.erase active_entry
        (200, { s with time_entries := entries2,
                       saved_time_entries := entries2 })
      | none =>
        let entries1 := updateFirst
          (fun e => decide (e.userId = user_id) && e.logoutTime.isNone)
          (fun e =>
            { e with logoutTime := some now,
                     totalHours := current_session_hours,
                     lastModified := now })
          s.time_entries
        (200, { s with time_entries := entries1,
                       saved_time_entries := entries1 })

/-- `/logout`, the administrative force-logout (src/app.py lines 432-513). -/
def logout (s : AppState) (user_id : Nat) (note_content : String)
    (requester_id : Nat) (now : ℚ) (newNoteId : Nat) : Nat × AppState :=
  match s.users.find? (fun u => decide (u.id = requester_id)) with
  -- with no requester the failure log calls `.get` on `None`, raising
  -- `AttributeError`, which the framework answers with 500
  | none => (500, s)
  | some requester_user =>
    if !(decide (requester_user.role = Role.ADMIN) ||
         decide (requester_user.role = Role.TIMEKEEPER)) then (403, s)
    else
      match s.users.find? (fun u => decide (u.id = user_id)) with
      | none => (404, s)
      | some _user_to_logout =>
        match s.time_entries.find?
            (fun e => decide (e.userId = user_id) && e.logoutTime.isNone) with
        | none => (400, s)
        | some active_entry =>
          let total_hours := round2 ((now - active_entry.loginTime) / 3600)
          let new_note : Note :=
            { id := newNoteId, entityId := active_entry.id,
              entityType := EntityType.time_entry, timestamp := now,
              editor := requester_user.name,
              note := NoteText.entryChange "Logged out" requester_user.name
                note_content
                active_entry.loginTime active_entry.logoutTime
                active_entry.totalHours
                active_entry.loginTime (some now) total_hours }
          let notes1 := s.notes ++ [new_note]
          let entries1 := updateFirst
            (fun e => decide (e.userId = user_id) && e.logoutTime.isNone)
            (fun e =>
              { e with logoutTime := some now, totalHours := total_hours,
                       edited := true, lastModified := now,
                       editNotes := e.editNotes ++ [newNoteId] })
            s.time_entries
          (200, { s with notes := notes1, saved_notes := notes1,
                         time_entries := entries1,
                         saved_time_entries := entries1 })

/-- `if logout_dt and logout_dt < login_dt` of the source: a supplied
logout time strictly before the login time. -/
def logoutBeforeLogin (login_dt : ℚ) : Option ℚ → Bool
  | some l => decide (l < login_dt)
  | none => false

/-- The recomputed `totalHours` of an edit: the rounded duration when a
logout time is supplied, otherwise 0. -/
def editTotalHours (login_dt : ℚ) : Option ℚ → ℚ
  | some l => round2 ((l - login_dt) / 3600)
  | none => 0

/-- `/edit_time_entry` (src/app.py lines 516-615).  `login_time = none`
models the request without a login time: `datetime.fromisoformat(None)`
raises `TypeError`, which falls through to the generic `except Exception`
handler (status 500), not the `ValueError` handler. -/
def edit_time_entry (s : AppState) (entry_id? : Option Nat)
    (login_time logout_time : Option ℚ) (edit_note : Option String)
    (editor_user_id : Nat) (now : ℚ) (newNoteId : Nat) : Nat × AppState :=
  if entry_id?.isNone || noteMissing edit_note then (400, s)
  else
    let entry_id := entry_id?.getD 0
    match s.time_entries.find? (fun e => decide (e.id = entry_id)) with
    | none => (404, s)
    | some entry_to_edit =>
      match s.users.find? (fun u => decide (u.id = editor_user_id)) with
      -- with no editor the failure log calls `.get` on `None`, raising
      -- `AttributeError`, answered with 500
      | none => (500, s)
      | some editor_user =>
        if !(decide (editor_user.role = Role.ADMIN) ||
             decide (editor_user.role = Role.TIMEKEEPER)) then (403, s)
        else
          match login_time with
          | none => (500, s)
          | some login_dt =>
            if logoutBeforeLogin login_dt logout_time then (400, s)
            else
              let total : ℚ := editTotalHours login_dt logout_time
              let new_note : Note :=
                { id := newNoteId, entityId := entry_id,
                  entityType := EntityType.time_entry, timestamp := now,
                  editor := editor_user.name,
                  note := NoteText.entryChange "Edited" editor_user.name
                    (edit_note.getD "")
                    entry_to_edit.loginTime entry_to_edit.logoutTime
                    entry_to_edit.totalHours
                    login_dt logout_time total }
              let notes1 := s.notes ++ [new_note]
              let entries1 := updateFirst (fun e => decide (e.id = entry_id))
                (fun e =>
                  { e with loginTime := login_dt, logoutTime := logout_time,
                           totalHours := total, edited := true,
                           lastModified := now,
                           editNotes := e.editNotes ++ [newNoteId] })
                s.time_entries
              (200, { s with notes := notes1, saved_notes := notes1,
                             time_entries := entries1,
                             saved_time_entries := entries1 })

/-- `/suspend_user` (src/app.py lines 656-728). -/
def suspend_user (s : AppState) (user_id : Nat) (is_suspended : Bool)
    (note_content : Option String) (requester_id : Nat) (now : ℚ)
    (newNoteId : Nat) : Nat × AppState :=
  match s.users.find? (fun u => decide (u.id = user_id)) with
  | none => (404, s)
  | some user_to_modify =>
    match s.users.find? (fun u => decide (u.id = requester_id)) with
    -- with no requester the failure log calls `.get` on `None`, raising
    -- `AttributeError`, answered with 500
    | none => (500, s)
    | some requester_user =>
      if !(decide (requester_user.role = Role.ADMIN) ||
           decide (requester_user.role = Role.TIMEKEEPER)) then (403, s)
      else if decide (user_id = requester_id) then (403, s)
      else if decide (requester_user.role = Role.TIMEKEEPER) &&
              decide (user_to_modify.role = Role.ADMIN) then (403, s)
      else if noteBlank note_content then (400, s)
      else
        let action := if is_suspended then "Suspended" else "Unsuspended"
        let new_note : Note :=
          { id := newNoteId, entityId := user_id,
            entityType := EntityType.user_suspension, timestamp := now,
            editor := requester_user.name,
            note := NoteText.suspensionChange action requester_user.name
              (note_content.getD "")
              user_to_modify.is_suspended user_to_modify.role
              is_suspended user_to_modify.role }
        let notes1 := s.notes ++ [new_note]
        let users1 := updateFirst (fun u => decide (u.id = user_id))
          (fun u =>
            { u with is_suspended := is_suspended,
                     suspension_notes := u.suspension_notes ++ [newNoteId] })
          s.users
        (200, { s with notes := notes1, saved_notes := notes1,
                       users := users1, saved_users := users1 })

/-- `/users/delete/<user_id>` (src/app.py lines 375-430). -/
def delete_user (s : AppState) (user_id : Nat) (requester_id : Nat) :
    Nat × AppState :=
  match s.users.find? (fun u => decide (u.id = user_id)) with
  | none => (404, s)
  | some user_to_delete =>
    match s.users.find? (fun u => decide (u.id = requester_id)) with
    -- with no requester even the pre-check log calls `.get` on `None`,
    -- raising `AttributeError`, answered with 500
    | none => (500, s)
    | some requester_user =>
      if !decide (requester_user.role = Role.ADMIN) then (403, s)
      else if decide (user_to_delete.id = requester_id) then (403, s)
      else if decide (user_to_delete.role = Role.ADMIN) &&
              decide ((s.users.filter
                (fun u => decide (u.role = Role.ADMIN))).length ≤ 1) then
        (403, s)
      else
        let notes_to_delete_ids : List Nat :=
          ((s.time_entries.filter (fun e => decide (e.userId = user_id))).map
            TimeEntry.editNotes).flatten ++ user_to_delete.suspension_notes
        let users1 := s.users.filter (fun u => !decide (u.id = user_id))
        let entries1 :=
          s.time_entries.filter (fun e => !decide (e.userId = user_id))
        let notes1 :=
          s.notes.filter (fun n => !notes_to_delete_ids.contains n.id)
        (200, { users := users1, saved_users := users1,
                time_entries := entries1, saved_time_entries := entries1,
                notes := notes1, saved_notes := notes1 })

/-- One row of the `/time_entries` response: the (possibly flag-reset) copy
of the entry, the joined user name, and the hydrated notes. -/
structure EntryView where
  entry : TimeEntry
  userName : String
  editNotesFull : List Note
  deriving DecidableEq, Repr

/-- The reset condition of the listing read: `edited` set and
`lastModified` more than three days old. -/
def resetDue (now : ℚ) (e : TimeEntry) : Bool :=
  e.edited && decide (now - e.lastModified > 3 * 86400)

/-- `/time_entries` (src/app.py lines 624-654).  The source builds
`entry_copy = entry.copy()` per row and clears `edited` only on the copy;
when any copy was cleared it calls `save_data` on the untouched
`time_entries` list. -/
def get_all_time_entries (s : AppState) (now : ℚ) :
    List EntryView × AppState :=
  let views := s.time_entries.map (fun e =>
    let e1 := if resetDue now e then { e with edited := false } else e
    { entry := e1,
      userName :=
        match s.users.find? (fun u => decide (u.id = e.userId)) with
        | some u => u.name
        | none => "Unknown User",
      editNotesFull := s.notes.filter (fun n => e.editNotes.contains n.id) })
  let updated_entries_flag := s.time_entries.any (resetDue now)
  if updated_entries_flag then
    (views, { s with saved_time_entries := s.time_entries })
  else (views, s)

/-- Number of active (open) entries a user has: the quantity the
"at most one active entry per user" invariant bounds. -/
def activeCount (entries : List TimeEntry) (uid : Nat) : Nat :=
  (entries.filter
    (fun e => decide (e.userId = uid) && e.logoutTime.isNone)).length

theorem ratFloor_eq_floor (q : ℚ) : ratFloor q = Int.floor q := by
  rw [ratFloor, Rat.floor_def]

theorem find?_append_of_none {α} {p : α → Bool} {l₁ l₂ : List α}
    (h : l₁.find? p = none) : (l₁ ++ l₂).find? p = l₂.find? p := by
  induction l₁ with
  | nil => rfl
  | cons x xs ih =>
    rw [List.find?_eq_none] at h
    have hx : p x = false := by simpa using h x (by simp)
    have hxs : xs.find? p = none := by
      rw [List.find?_eq_none]
      intro y hy
      exact h y (by simp [hy])
    simpa [List.find?, hx] using ih hxs

theorem updateFirst_append_of_none {α} {p : α → Bool} (f : α → α)
    {l₁ l₂ : List α} (h : l₁.find? p = none) :
    updateFirst p f (l₁ ++ l₂) = l₁ ++ updateFirst p f l₂ := by
  induction l₁ with
  | nil => rfl
  | cons x xs ih =>
    rw [List.find?_eq_none] at h
    have hx : p x = false := by simpa using h x (by simp)
    have hxs : xs.find? p = none := by
      rw [List.find?_eq_none]
      intro y hy
      exact h y (by simp [hy])
    simp [updateFirst, hx, ih hxs]

theorem updateFirst_mem_of_find? {α} {p : α → Bool} (f : α → α)
    {l : List α} {a : α} (h : l.find? p = some a) :
    f a ∈ updateFirst p f l := by
  induction l with
  | nil => simp at h
  | cons x xs ih =>
    by_cases hx : p x
    · rw [List.find?_cons_of_pos _ hx] at h
      cases h
      simp [updateFirst, hx]
    · rw [List.find?_cons_of_neg _ (by simpa using hx)] at h
      simp [updateFirst, hx, ih h]

/-! Concrete sample data used by the counterexamples and witnesses. -/

def uWorker : User := ⟨1, "Worker One", Role.worker, false, []⟩

def uAdmin : User := ⟨9, "Admin", Role.ADMIN, false, []⟩

def uKeeper : User := ⟨5, "Keeper", Role.TIMEKEEPER, false, []⟩

def uSusp : User := ⟨4, "Suspended W", Role.worker, true, []⟩

/-- A closed one-hour entry of `uWorker` for day 0. -/
def eClosed : TimeEntry := ⟨1, 1, 0, some 3600, 1, 0, false, 3600, []⟩

/-- An open entry of `uWorker` started later on day 0. -/
def eActive : TimeEntry := ⟨2, 1, 7200, none, 0, 0, false, 7200, []⟩

/-- `uWorker` has one closed and one open entry: the invariant state from
which the partial edit is fired. -/
def stBoth : AppState :=
  ⟨[uWorker, uAdmin], [eClosed, eActive], [],
   [uWorker, uAdmin], [eClosed, eActive], []⟩

/-- One closed entry whose `edited` flag was set at time 3600. -/
def eStale : TimeEntry := ⟨3, 1, 0, some 3600, 1, 0, true, 3600, []⟩

def stStale : AppState := ⟨[uWorker], [eStale], [], [uWorker], [eStale], []⟩

def stNoUsers : AppState := ⟨[], [], [], [], [], []⟩

def stSusp : AppState := ⟨[uSusp], [], [], [uSusp], [], []⟩

/-- C1.  The "at most one active entry per user" invariant is NOT preserved
by EditEntry: editing the closed entry of a user who already has an active
entry, supplying no new logout time, reopens the closed entry and leaves the
user with two active entries.  The state `stBoth` satisfies the invariant
(one active entry for user 1); the edit succeeds with status 200 and
afterwards user 1 has two active entries.  The spec states the invariant as
a required property, so this is a defect of the code
(src/app.py lines 550-570: no check against an existing active entry before
setting `logoutTime = None`). -/
theorem edit_entry_creates_second_active_entry :
    activeCount stBoth.time_entries 1 = 1 ∧
    (edit_time_entry stBoth (some 1) (some 0) none (some "fix") 9 7300 50).1
      = 200 ∧
    activeCount
      (edit_time_entry stBoth (some 1) (some 0) none (some "fix") 9 7300
        50).2.time_entries 1 = 2 := by
  decide

/-- C2.  The lazy expiry of the `edited` flag only affects the copies
returned by the listing read: the in-memory collection is never changed by
`get_all_time_entries` (first conjunct, for every state), and on the
concrete stale state the response shows `edited = false` while both the
in-memory list and the durable file rewritten by the read still carry
`edited = true`.  The save the source performs (and logs as "Reset 'edited'
flags") persists the unchanged collection. -/
theorem expired_edited_flag_reset_not_persisted :
    (∀ (s : AppState) (now : ℚ),
      ((get_all_time_entries s now).2).time_entries = s.time_entries) ∧
    ((get_all_time_entries stStale 262801).1.map (fun v => v.entry.edited)
      = [false]) ∧
    ((get_all_time_entries stStale 262801).2.time_entries.map
      TimeEntry.edited = [true]) ∧
    ((get_all_time_entries stStale 262801).2.saved_time_entries.map
      TimeEntry.edited = [true]) := by
  refine ⟨?_, by decide, by decide, by decide⟩
  intro s now
  simp only [get_all_time_entries]
  split <;> rfl

/-- C3 counterexample.  In `stBoth` user 1 exists, is not suspended, and
has an active entry, yet `clock_in` answers status 400, not the 409 the
claim requires for the Conflict case. -/
theorem clock_in_conflict_status_is_400_not_409 :
    (stBoth.users.find? (fun u => decide (u.id = 1))).isSome ∧
    (stBoth.time_entries.find?
      (fun e => decide (e.userId = 1) && e.logoutTime.isNone)).isSome ∧
    (clock_in stBoth 1 9999 77).1 = 400 ∧
    (clock_in stBoth 1 9999 77).1 ≠ 409 := by
  decide

/-- C3 (amended).  ClockIn fails with status 404 (NotFound) when no user
has the id, 403 (Forbidden) when the user is suspended, and 400 — not
409 — when the user already has an active entry; in each failure case the
state, and in particular the entry collection, is unchanged. -/
theorem clock_in_error_cases (s : AppState) (uid : Nat) (now : ℚ)
    (nid : Nat) :
    (s.users.find? (fun u => decide (u.id = uid)) = none →
      clock_in s uid now nid = (404, s)) ∧
    (∀ u, s.users.find? (fun w => decide (w.id = uid)) = some u →
      u.is_suspended = true → clock_in s uid now nid = (403, s)) ∧
    (∀ u, s.users.find? (fun w => decide (w.id = uid)) = some u →
      u.is_suspended = false →
      (s.time_entries.find?
        (fun e => decide (e.userId = uid) && e.logoutTime.isNone)).isSome →
      clock_in s uid now nid = (400, s)) := by
  refine ⟨?_, ?_, ?_⟩
  · intro h
    simp [clock_in, h]
  · intro u hu hs
    simp [clock_in, hu, hs]
  · intro u hu hs hact
    obtain ⟨a, ha⟩ := Option.isSome_iff_exists.mp hact
    simp [clock_in, hu, hs, ha]

/-- C10.  When no new login time is supplied, the source calls
`datetime.fromisoformat(None)`, which raises `TypeError`; that is caught by
the generic `except Exception` handler, so the call answers 500 (not the
400 of `InvalidInput`), and since the exception fires before any mutation
the entry and the note ledger are untouched. -/
theorem edit_without_login_time_is_server_error (s : AppState)
    (entry_id : Nat) (logout_time : Option ℚ) (note_text : String)
    (editor_id : Nat) (now : ℚ) (nid : Nat) (entry : TimeEntry)
    (editor : User)
    (hn : note_text ≠ "")
    (he : s.time_entries.find? (fun e => decide (e.id = entry_id))
      = some entry)
    (hu : s.users.find? (fun u => decide (u.id = editor_id)) = some editor)
    (hrole : editor.role = Role.ADMIN ∨ editor.role = Role.TIMEKEEPER) :
    edit_time_entry s (some entry_id) none logout_time (some note_text)
      editor_id now nid = (500, s) := by
  have hrole' : (decide (editor.role = Role.ADMIN) ||
      decide (editor.role = Role.TIMEKEEPER)) = true := by
    rcases hrole with h | h <;> simp [h]
  simp [edit_time_entry, noteMissing, hn, he, hu, hrole']

/-- C10 witness: editing entry 1 of `stBoth` with no login time answers
500 and leaves the state untouched. -/
theorem edit_without_login_time_is_server_error_witness :
    (stBoth.time_entries.find? (fun e => decide (e.id = 1)) = some eClosed) ∧
    uAdmin.role = Role.ADMIN ∧
    edit_time_entry stBoth (some 1) none (some 3600) (some "why") 9 99 50
      = (500, stBoth) :=
  ⟨by decide, by decide,
   edit_without_login_time_is_server_error stBoth 1 (some 3600) "why" 9 99 50
     eClosed uAdmin (by decide) (by decide) (by decide)
     (Or.inl (by decide))⟩

/-- C3 witness: the three failure cases of `clock_in_error_cases` at
concrete states. -/
theorem clock_in_error_cases_witness :
    (stNoUsers.users.find? (fun u => decide (u.id = 1)) = none ∧
      clock_in stNoUsers 1 0 5 = (404, stNoUsers)) ∧
    (uSusp.is_suspended = true ∧ clock_in stSusp 4 0 5 = (403, stSusp)) ∧
    (clock_in stBoth 1 9999 77 = (400, stBoth)) :=
  ⟨⟨by decide, (clock_in_error_cases stNoUsers 1 0 5).1 (by decide)⟩,
   ⟨by decide,
    (clock_in_error_cases stSusp 4 0 5).2.1 uSusp (by decide) (by decide)⟩,
   (clock_in_error_cases stBoth 1 9999 77).2.2 uWorker (by decide)
     (by decide) (by decide)⟩

/-- C6.  An edit whose new logout time precedes the new login time is
rejected with status 400 (`InvalidInput`) before any mutation: the state —
in particular the targeted entry and the note ledger — is exactly the state
before the call. -/
theorem edit_rejects_logout_before_login (s : AppState) (entry_id : Nat)
    (login_dt logout_dt : ℚ) (note_text : String) (editor_id : Nat)
    (now : ℚ) (nid : Nat) (entry : TimeEntry) (editor : User)
    (hn : note_text ≠ "")
    (he : s.time_entries.find? (fun e => decide (e.id = entry_id))
      = some entry)
    (hu : s.users.find? (fun u => decide (u.id = editor_id)) = some editor)
    (hrole : editor.role = Role.ADMIN ∨ editor.role = Role.TIMEKEEPER)
    (hlt : logout_dt < login_dt) :
    edit_time_entry s (some entry_id) (some login_dt) (some logout_dt)
      (some note_text) editor_id now nid = (400, s) := by
  have hrole' : (decide (editor.role = Role.ADMIN) ||
      decide (editor.role = Role.TIMEKEEPER)) = true := by
    rcases hrole with h | h <;> simp [h]
  simp [edit_time_entry, noteMissing, logoutBeforeLogin, hn, he, hu, hrole',
    hlt]

/-- C6 witness: setting logout 0 before login 3600 on entry 1 of `stBoth`
answers 400 and changes nothing. -/
theorem edit_rejects_logout_before_login_witness :
    ((0 : ℚ) < 3600) ∧
    edit_time_entry stBoth (some 1) (some 3600) (some 0) (some "why") 9 99 50
      = (400, stBoth) :=
  ⟨by decide,
   edit_rejects_logout_before_login stBoth 1 3600 0 "why" 9 99 50 eClosed
     uAdmin (by decide) (by decide) (by decide) (Or.inl (by decide))
     (by decide)⟩

/-- C9.  Suspension and active sessions: a suspended user cannot clock in
(403); SetSuspension never touches the time-entry collection, whatever its
outcome; and ClockOut performs no suspension check — a suspended user with
an active entry clocks out with status 200 and the entry is closed at `now`
with the recomputed rounded hours. -/
theorem suspension_does_not_affect_active_session :
    (∀ (s : AppState) (uid : Nat) (now : ℚ) (nid : Nat) (u : User),
      s.users.find? (fun w => decide (w.id = uid)) = some u →
      u.is_suspended = true → clock_in s uid now nid = (403, s)) ∧
    (∀ (s : AppState) (uid : Nat) (b : Bool) (note : Option String)
      (req : Nat) (now : ℚ) (nid : Nat),
      ((suspend_user s uid b note req now nid).2).time_entries
        = s.time_entries) ∧
    (∀ (s : AppState) (uid : Nat) (now : ℚ) (u : User) (active : TimeEntry),
      s.users.find? (fun w => decide (w.id = uid)) = some u →
      u.is_suspended = true →
      s.time_entries.find?
        (fun e => decide (e.userId = uid) && e.logoutTime.isNone)
        = some active →
      s.time_entries.find? (fun e =>
        decide (e.userId = uid) && decide (e.date = dayOf now) &&
          e.logoutTime.isSome && decide (dayOf e.loginTime = dayOf now))
        = none →
      (clock_out s uid now).1 = 200 ∧
      ∃ e ∈ (clock_out s uid now).2.time_entries,
        e.id = active.id ∧ e.logoutTime = some now ∧
        e.totalHours = round2 ((now - active.loginTime) / 3600)) := by
  refine ⟨?_, ?_, ?_⟩
  · intro s uid now nid u hu hs
    simp [clock_in, hu, hs]
  · intro s uid b note req now nid
    unfold suspend_user
    split
    · rfl
    split
    · rfl
    split
    · rfl
    split
    · rfl
    split
    · rfl
    split
    · rfl
    rfl
  · intro s uid now u active hu _hs hact htoday
    have hmem := updateFirst_mem_of_find?
      (fun e =>
        { e with
          logoutTime := some now,
          totalHours := round2 ((now - active.loginTime) / 3600),
          lastModified := now }) hact
    constructor
    · simp only [clock_out, hu, hact, htoday]
    · simp only [clock_out, hu, hact, htoday]
      exact ⟨_, hmem, rfl, rfl, rfl⟩

/-- An open entry of the suspended user `uSusp` started at time 1000. -/
def eSuspOpen : TimeEntry := ⟨7, 4, 1000, none, 0, 0, false, 1000, []⟩

def stSuspActive : AppState :=
  ⟨[uSusp, uAdmin], [eSuspOpen], [], [uSusp, uAdmin], [eSuspOpen], []⟩

/-- C9 witness: the suspended user 4 with the open entry 7 cannot clock in,
keeps the entry across a suspension update, and clocks out normally. -/
theorem suspension_does_not_affect_active_session_witness :
    uSusp.is_suspended = true ∧
    clock_in stSuspActive 4 2000 55 = (403, stSuspActive) ∧
    AppState.time_entries
      ((suspend_user stSuspActive 4 true (some "again") 9 1500 60).2)
      = stSuspActive.time_entries ∧
    ((clock_out stSuspActive 4 2000).1 = 200 ∧
      ∃ e ∈ (clock_out stSuspActive 4 2000).2.time_entries,
        e.id = eSuspOpen.id ∧ e.logoutTime = some 2000 ∧
        e.totalHours = round2 ((2000 - eSuspOpen.loginTime) / 3600)) :=
  ⟨by decide,
   suspension_does_not_affect_active_session.1 stSuspActive 4 2000 55 uSusp
     (by decide) (by decide),
   suspension_does_not_affect_active_session.2.1 stSuspActive 4 true
     (some "again") 9 1500 60,
   suspension_does_not_affect_active_session.2.2 stSuspActive 4 2000 uSusp
     eSuspOpen (by decide) (by decide) (by decide) (by decide)⟩

theorem logout_appends_one_note (s : AppState) (uid : Nat)
    (note_content : String) (req : Nat) (now : ℚ) (nid : Nat)
    (requester : User) (active : TimeEntry)
    (hreq : s.users.find? (fun u => decide (u.id = req)) = some requester)
    (hrole : requester.role = Role.ADMIN ∨ requester.role = Role.TIMEKEEPER)
    (htgt : (s.users.find? (fun u => decide (u.id = uid))).isSome)
    (hact : s.time_entries.find?
      (fun e => decide (e.userId = uid) && e.logoutTime.isNone)
      = some active) :
    (logout s uid note_content req now nid).1 = 200 ∧
    (logout s uid note_content req now nid).2.notes = s.notes ++
      [⟨nid, active.id, EntityType.time_entry, now, requester.name,
        NoteText.entryChange "Logged out" requester.name note_content
          active.loginTime active.logoutTime active.totalHours
          active.loginTime (some now)
          (round2 ((now - active.loginTime) / 3600))⟩] ∧
    ∃ e ∈ (logout s uid note_content req now nid).2.time_entries,
      e.id = active.id ∧ e.editNotes = active.editNotes ++ [nid] := by
  obtain ⟨t, ht⟩ := Option.isSome_iff_exists.mp htgt
  have hrole' : (decide (requester.role = Role.ADMIN) ||
      decide (requester.role = Role.TIMEKEEPER)) = true := by
    rcases hrole with h | h <;> simp [h]
  have hmem := updateFirst_mem_of_find?
    (fun e =>
      { e with
        logoutTime := some now,
        totalHours := round2 ((now - active.loginTime) / 3600),
        edited := true, lastModified := now,
        editNotes := e.editNotes ++ [nid] }) hact
  refine ⟨?_, ?_, ?_⟩
  · simp only [logout, hreq, hrole', Bool.not_true, Bool.false_eq_true,
      if_false, ht, hact]
  · simp only [logout, hreq, hrole', Bool.not_true, Bool.false_eq_true,
      if_false, ht, hact]
  · simp only [logout, hreq, hrole', Bool.not_true, Bool.false_eq_true,
      if_false, ht, hact]
    exact ⟨_, hmem, rfl, rfl⟩

theorem edit_appends_one_note (s : AppState) (entry_id : Nat)
    (login_dt : ℚ) (logout_time : Option ℚ) (note_text : String)
    (editor_id : Nat) (now : ℚ) (nid : Nat) (entry : TimeEntry)
    (editor : User)
    (hn : note_text ≠ "")
    (he : s.time_entries.find? (fun e => decide (e.id = entry_id))
      = some entry)
    (hu : s.users.find? (fun u => decide (u.id = editor_id)) = some editor)
    (hrole : editor.role = Role.ADMIN ∨ editor.role = Role.TIMEKEEPER)
    (hok : logout_time = none ∨ ∃ l, logout_time = some l ∧ login_dt ≤ l) :
    (edit_time_entry s (some entry_id) (some login_dt) logout_time
      (some note_text) editor_id now nid).1 = 200 ∧
    (edit_time_entry s (some entry_id) (some login_dt) logout_time
      (some note_text) editor_id now nid).2.notes = s.notes ++
      [⟨nid, entry_id, EntityType.time_entry, now, editor.name,
        NoteText.entryChange "Edited" editor.name note_text
          entry.loginTime entry.logoutTime entry.totalHours
          login_dt logout_time (editTotalHours login_dt logout_time)⟩] ∧
    ∃ e ∈ (edit_time_entry s (some entry_id) (some login_dt) logout_time
      (some note_text) editor_id now nid).2.time_entries,
      e.id = entry.id ∧ e.edited = true ∧
      e.editNotes = entry.editNotes ++ [nid] := by
  have hrole' : (decide (editor.role = Role.ADMIN) ||
      decide (editor.role = Role.TIMEKEEPER)) = true := by
    rcases hrole with h | h <;> simp [h]
  have hguard : logoutBeforeLogin login_dt logout_time = false := by
    rcases hok with h | ⟨l, h, hle⟩ <;> subst h
    · rfl
    · simp [logoutBeforeLogin, not_lt.mpr hle]
  have hmem := updateFirst_mem_of_find?
    (fun e =>
      { e with
        loginTime := login_dt, logoutTime := logout_time,
        totalHours := editTotalHours login_dt logout_time,
        edited := true, lastModified := now,
        editNotes := e.editNotes ++ [nid] }) he
  refine ⟨?_, ?_, ?_⟩
  · simp only [edit_time_entry, noteMissing, Option.isNone_some,
      Bool.false_or, decide_eq_false hn, Option.getD_some,
      he, hu, hrole', Bool.not_true, Bool.false_eq_true, if_false, hguard]
  · simp only [edit_time_entry, noteMissing, Option.isNone_some,
      Bool.false_or, decide_eq_false hn, Option.getD_some,
      he, hu, hrole', Bool.not_true, Bool.false_eq_true, if_false, hguard]
  · simp only [edit_time_entry, noteMissing, Option.isNone_some,
      Bool.false_or, decide_eq_false hn, Option.getD_some,
      he, hu, hrole', Bool.not_true, Bool.false_eq_true, if_false, hguard]
    exact ⟨_, hmem, rfl, rfl, rfl⟩

theorem suspend_appends_one_note (s : AppState) (uid : Nat) (b : Bool)
    (note_content : String) (req : Nat) (now : ℚ) (nid : Nat)
    (target requester : User)
    (htgt : s.users.find? (fun u => decide (u.id = uid)) = some target)
    (hreq : s.users.find? (fun u => decide (u.id = req)) = some requester)
    (hrole : requester.role = Role.ADMIN ∨ requester.role = Role.TIMEKEEPER)
    (hne : uid ≠ req)
    (hnotk : ¬(requester.role = Role.TIMEKEEPER ∧ target.role = Role.ADMIN))
    (hnb : noteBlank (some note_content) = false) :
    (suspend_user s uid b (some note_content) req now nid).1 = 200 ∧
    (suspend_user s uid b (some note_content) req now nid).2.notes
      = s.notes ++
      [⟨nid, uid, EntityType.user_suspension, now, requester.name,
        NoteText.suspensionChange (if b then "Suspended" else "Unsuspended")
          requester.name note_content
          target.is_suspended target.role b target.role⟩] ∧
    ∃ u ∈ (suspend_user s uid b (some note_content) req now nid).2.users,
      u.id = target.id ∧ u.is_suspended = b ∧
      u.suspension_notes = target.suspension_notes ++ [nid] := by
  have hrole' : (decide (requester.role = Role.ADMIN) ||
      decide (requester.role = Role.TIMEKEEPER)) = true := by
    rcases hrole with h | h <;> simp [h]
  have htk : (decide (requester.role = Role.TIMEKEEPER) &&
      decide (target.role = Role.ADMIN)) = false := by
    by_contra hc
    rw [Bool.not_eq_false, Bool.and_eq_true, decide_eq_true_eq,
      decide_eq_true_eq] at hc
    exact hnotk hc
  have hmem := updateFirst_mem_of_find?
    (fun u =>
      { u with
        is_suspended := b,
        suspension_notes := u.suspension_notes ++ [nid] }) htgt
  refine ⟨?_, ?_, ?_⟩
  · simp only [suspend_user, htgt, hreq, hrole', Bool.not_true,
      Bool.false_eq_true, if_false, decide_eq_false hne, htk, hnb]
  · simp only [suspend_user, htgt, hreq, hrole', Bool.not_true,
      Bool.false_eq_true, if_false, decide_eq_false hne, htk, hnb,
      Option.getD_some]
  · simp only [suspend_user, htgt, hreq, hrole', Bool.not_true,
      Bool.false_eq_true, if_false, decide_eq_false hne, htk, hnb]
    exact ⟨_, hmem, rfl, rfl, rfl⟩

/-- C5.  Every successful ForceLogout, EditEntry and SetSuspension call
appends exactly one new Note to the ledger (the resulting ledger is the old
one with a single appended record, so no other note is created, mutated or
deleted), links the fresh note id into the affected entity's note-id list
(`editNotes` of the entry, `suspension_notes` of the user), and the note
carries both the before values and the after values of the changed
fields. -/
theorem admin_ops_append_single_audit_note :
    (∀ (s : AppState) (uid : Nat) (note_content : String) (req : Nat)
      (now : ℚ) (nid : Nat) (requester : User) (active : TimeEntry),
      s.users.find? (fun u => decide (u.id = req)) = some requester →
      (requester.role = Role.ADMIN ∨ requester.role = Role.TIMEKEEPER) →
      (s.users.find? (fun u => decide (u.id = uid))).isSome →
      s.time_entries.find?
        (fun e => decide (e.userId = uid) && e.logoutTime.isNone)
        = some active →
      (logout s uid note_content req now nid).1 = 200 ∧
      (logout s uid note_content req now nid).2.notes = s.notes ++
        [⟨nid, active.id, EntityType.time_entry, now, requester.name,
          NoteText.entryChange "Logged out" requester.name note_content
            active.loginTime active.logoutTime active.totalHours
            active.loginTime (some now)
            (round2 ((now - active.loginTime) / 3600))⟩] ∧
      ∃ e ∈ (logout s uid note_content req now nid).2.time_entries,
        e.id = active.id ∧ e.editNotes = active.editNotes ++ [nid]) ∧
    (∀ (s : AppState) (entry_id : Nat) (login_dt : ℚ)
      (logout_time : Option ℚ) (note_text : String) (editor_id : Nat)
      (now : ℚ) (nid : Nat) (entry : TimeEntry) (editor : User),
      note_text ≠ "" →
      s.time_entries.find? (fun e => decide (e.id = entry_id))
        = some entry →
      s.users.find? (fun u => decide (u.id = editor_id)) = some editor →
      (editor.role = Role.ADMIN ∨ editor.role = Role.TIMEKEEPER) →
      (logout_time = none ∨ ∃ l, logout_time = some l ∧ login_dt ≤ l) →
      (edit_time_entry s (some entry_id) (some login_dt) logout_time
        (some note_text) editor_id now nid).1 = 200 ∧
      (edit_time_entry s (some entry_id) (some login_dt) logout_time
        (some note_text) editor_id now nid).2.notes = s.notes ++
        [⟨nid, entry_id, EntityType.time_entry, now, editor.name,
          NoteText.entryChange "Edited" editor.name note_text
            entry.loginTime entry.logoutTime entry.totalHours
            login_dt logout_time (editTotalHours login_dt logout_time)⟩] ∧
      ∃ e ∈ (edit_time_entry s (some entry_id) (some login_dt) logout_time
        (some note_text) editor_id now nid).2.time_entries,
        e.id = entry.id ∧ e.edited = true ∧
        e.editNotes = entry.editNotes ++ [nid]) ∧
    (∀ (s : AppState) (uid : Nat) (b : Bool) (note_content : String)
      (req : Nat) (now : ℚ) (nid : Nat) (target requester : User),
      s.users.find? (fun u => decide (u.id = uid)) = some target →
      s.users.find? (fun u => decide (u.id = req)) = some requester →
      (requester.role = Role.ADMIN ∨ requester.role = Role.TIMEKEEPER) →
      uid ≠ req →
      ¬(requester.role = Role.TIMEKEEPER ∧ target.role = Role.ADMIN) →
      noteBlank (some note_content) = false →
      (suspend_user s uid b (some note_content) req now nid).1 = 200 ∧
      (suspend_user s uid b (some note_content) req now nid).2.notes
        = s.notes ++
        [⟨nid, uid, EntityType.user_suspension, now, requester.name,
          NoteText.suspensionChange
            (if b then "Suspended" else "Unsuspended")
            requester.name note_content
            target.is_suspended target.role b target.role⟩] ∧
      ∃ u ∈ (suspend_user s uid b (some note_content) req now nid).2.users,
        u.id = target.id ∧ u.is_suspended = b ∧
        u.suspension_notes = target.suspension_notes ++ [nid]) :=
  ⟨fun s uid nc req now nid requester active hreq hrole htgt hact =>
    logout_appends_one_note s uid nc req now nid requester active hreq hrole
      htgt hact,
   fun s eid l lo nt ed now nid entry editor hn he hu hrole hok =>
    edit_appends_one_note s eid l lo nt ed now nid entry editor hn he hu
      hrole hok,
   fun s uid b nc req now nid target requester htgt hreq hrole hne hnotk
      hnb =>
    suspend_appends_one_note s uid b nc req now nid target requester htgt
      hreq hrole hne hnotk hnb⟩

/-- C5 witness: each of the three operations at a concrete state appends
its single before/after note with status 200. -/
theorem admin_ops_append_single_audit_note_witness :
    ((logout stSuspActive 4 "go home" 9 2000 70).1 = 200 ∧
      (logout stSuspActive 4 "go home" 9 2000 70).2.notes
        = stSuspActive.notes ++
        [⟨70, eSuspOpen.id, EntityType.time_entry, 2000, uAdmin.name,
          NoteText.entryChange "Logged out" uAdmin.name "go home"
            eSuspOpen.loginTime eSuspOpen.logoutTime eSuspOpen.totalHours
            eSuspOpen.loginTime (some 2000)
            (round2 ((2000 - eSuspOpen.loginTime) / 3600))⟩]) ∧
    ((edit_time_entry stBoth (some 1) (some 0) (some 7200) (some "adjust")
        9 99 71).1 = 200 ∧
      (edit_time_entry stBoth (some 1) (some 0) (some 7200) (some "adjust")
        9 99 71).2.notes = stBoth.notes ++
        [⟨71, 1, EntityType.time_entry, 99, uAdmin.name,
          NoteText.entryChange "Edited" uAdmin.name "adjust"
            eClosed.loginTime eClosed.logoutTime eClosed.totalHours
            0 (some 7200) (editTotalHours 0 (some 7200))⟩]) ∧
    ((suspend_user stBoth 1 true (some "policy") 9 99 72).1 = 200 ∧
      (suspend_user stBoth 1 true (some "policy") 9 99 72).2.notes
        = stBoth.notes ++
        [⟨72, 1, EntityType.user_suspension, 99, uAdmin.name,
          NoteText.suspensionChange (if true then "Suspended"
            else "Unsuspended") uAdmin.name "policy"
            uWorker.is_suspended uWorker.role true uWorker.role⟩]) :=
  ⟨⟨(admin_ops_append_single_audit_note.1 stSuspActive 4 "go home" 9 2000 70
      uAdmin eSuspOpen (by decide) (Or.inl (by decide)) (by decide)
      (by decide)).1,
    (admin_ops_append_single_audit_note.1 stSuspActive 4 "go home" 9 2000 70
      uAdmin eSuspOpen (by decide) (Or.inl (by decide)) (by decide)
      (by decide)).2.1⟩,
   ⟨(admin_ops_append_single_audit_note.2.1 stBoth 1 0 (some 7200) "adjust"
      9 99 71 eClosed uAdmin (by decide) (by decide) (by decide)
      (Or.inl (by decide))
      (Or.inr ⟨7200, rfl, by decide⟩)).1,
    (admin_ops_append_single_audit_note.2.1 stBoth 1 0 (some 7200) "adjust"
      9 99 71 eClosed uAdmin (by decide) (by decide) (by decide)
      (Or.inl (by decide))
      (Or.inr ⟨7200, rfl, by decide⟩)).2.1⟩,
   ⟨(admin_ops_append_single_audit_note.2.2 stBoth 1 true "policy" 9 99 72
      uWorker uAdmin (by decide) (by decide) (Or.inl (by decide))
      (by decide) (by decide) (by decide)).1,
    (admin_ops_append_single_audit_note.2.2 stBoth 1 true "policy" 9 99 72
      uWorker uAdmin (by decide) (by decide) (Or.inl (by decide))
      (by decide) (by decide) (by decide)).2.1⟩⟩

/-- C7.  SetSuspension never mutates anything on failure (first conjunct);
every violated precondition — missing target, missing requester, requester
role neither ADMIN nor TIMEKEEPER, self-targeting, TIMEKEEPER targeting an
ADMIN, or a note that is blank after stripping — makes the call fail
(second conjunct); and in particular a Timekeeper suspending an Admin fails
with 403 Forbidden, users and notes unchanged (third conjunct). -/
theorem suspend_precondition_failures_change_nothing :
    (∀ (s : AppState) (uid : Nat) (b : Bool) (note : Option String)
      (req : Nat) (now : ℚ) (nid : Nat),
      (suspend_user s uid b note req now nid).1 ≠ 200 →
      (suspend_user s uid b note req now nid).2 = s) ∧
    (∀ (s : AppState) (uid : Nat) (b : Bool) (note : Option String)
      (req : Nat) (now : ℚ) (nid : Nat),
      (s.users.find? (fun u => decide (u.id = uid)) = none
       ∨ s.users.find? (fun u => decide (u.id = req)) = none
       ∨ (∃ q, s.users.find? (fun u => decide (u.id = req)) = some q ∧
            q.role ≠ Role.ADMIN ∧ q.role ≠ Role.TIMEKEEPER)
       ∨ uid = req
       ∨ (∃ q t, s.users.find? (fun u => decide (u.id = req)) = some q ∧
            s.users.find? (fun u => decide (u.id = uid)) = some t ∧
            q.role = Role.TIMEKEEPER ∧ t.role = Role.ADMIN)
       ∨ noteBlank note = true) →
      (suspend_user s uid b note req now nid).1 ≠ 200) ∧
    (∀ (s : AppState) (uid : Nat) (b : Bool) (note : Option String)
      (req : Nat) (now : ℚ) (nid : Nat) (q t : User),
      s.users.find? (fun u => decide (u.id = req)) = some q →
      s.users.find? (fun u => decide (u.id = uid)) = some t →
      q.role = Role.TIMEKEEPER → t.role = Role.ADMIN →
      (suspend_user s uid b note req now nid).1 = 403 ∧
      (suspend_user s uid b note req now nid).2 = s) := by
  refine ⟨?_, ?_, ?_⟩
  · intro s uid b note req now nid
    unfold suspend_user
    split
    · intro _; rfl
    split
    · intro _; rfl
    split
    · intro _; rfl
    split
    · intro _; rfl
    split
    · intro _; rfl
    split
    · intro _; rfl
    intro h
    exact absurd rfl h
  · intro s uid b note req now nid hviol
    rcases htgt : s.users.find? (fun u => decide (u.id = uid)) with _ | t
    · simp [suspend_user, htgt]
    rcases hreq : s.users.find? (fun u => decide (u.id = req)) with _ | q
    · simp [suspend_user, htgt, hreq]
    cases hrol : (decide (q.role = Role.ADMIN) ||
        decide (q.role = Role.TIMEKEEPER)) with
    | false => simp [suspend_user, htgt, hreq, hrol]
    | true =>
      cases hne : decide (uid = req) with
      | true => simp [suspend_user, htgt, hreq, hrol, hne]
      | false =>
        cases htk : (decide (q.role = Role.TIMEKEEPER) &&
            decide (t.role = Role.ADMIN)) with
        | true => simp [suspend_user, htgt, hreq, hrol, hne, htk]
        | false =>
          cases hnb : noteBlank note with
          | true => simp [suspend_user, htgt, hreq, hrol, hne, htk, hnb]
          | false =>
            exfalso
            rcases hviol with h | h | ⟨q2, hq2, h1, h2⟩ | h | ⟨q2, t2, hq2, ht2, h1, h2⟩ | h
            · rw [htgt] at h; cases h
            · rw [hreq] at h; cases h
            · rw [hreq] at hq2
              injection hq2 with hq2e
              subst hq2e
              rcases Bool.or_eq_true_iff.mp hrol with hr | hr
              · exact h1 (of_decide_eq_true hr)
              · exact h2 (of_decide_eq_true hr)
            · simp [h] at hne
            · rw [hreq] at hq2
              rw [htgt] at ht2
              injection hq2 with hq2e
              injection ht2 with ht2e
              subst hq2e
              subst ht2e
              simp [h1, h2] at htk
            · rw [h] at hnb; cases hnb
  · intro s uid b note req now nid q t hreq htgt hq ht
    have hrole' : (decide (q.role = Role.ADMIN) ||
        decide (q.role = Role.TIMEKEEPER)) = true := by simp [hq]
    by_cases huid : uid = req
    · constructor <;> simp [suspend_user, htgt, hreq, hrole', huid]
    · have htk : (decide (q.role = Role.TIMEKEEPER) &&
          decide (t.role = Role.ADMIN)) = true := by simp [hq, ht]
      constructor <;> simp [suspend_user, htgt, hreq, hrole', huid, htk]

def stTK : AppState :=
  ⟨[uAdmin, uKeeper], [], [], [uAdmin, uKeeper], [], []⟩

/-- C7 witness: timekeeper 5 attempting to suspend admin 9 in `stTK` fails
with 403 and the state is unchanged. -/
theorem suspend_precondition_failures_change_nothing_witness :
    ((suspend_user stTK 9 true (some "x") 5 0 80).1 ≠ 200 ∧
      (suspend_user stTK 9 true (some "x") 5 0 80).2 = stTK) ∧
    (suspend_user stTK 9 true (some "x") 5 0 80).1 ≠ 200 ∧
    ((suspend_user stTK 9 true (some "x") 5 0 80).1 = 403 ∧
      (suspend_user stTK 9 true (some "x") 5 0 80).2 = stTK) :=
  ⟨⟨by decide,
    suspend_precondition_failures_change_nothing.1 stTK 9 true (some "x") 5
      0 80 (by decide)⟩,
   suspend_precondition_failures_change_nothing.2.1 stTK 9 true (some "x")
     5 0 80
     (Or.inr (Or.inr (Or.inr (Or.inr (Or.inl
       ⟨uKeeper, uAdmin, by decide, by decide, by decide, by decide⟩))))),
   suspend_precondition_failures_change_nothing.2.2 stTK 9 true (some "x")
     5 0 80 uKeeper uAdmin (by decide) (by decide) (by decide) (by decide)⟩

/-- C8.  A successful user deletion removes exactly: the user record (a
user survives iff its id differs), every entry of that user (an entry
survives iff its userId differs), and every note whose id is referenced by
one of the deleted user's entries' `editNotes` or by the user's
`suspension_notes` (a note survives iff it is not so referenced); all other
users, entries and notes survive. -/
theorem delete_user_cascades_exactly (s : AppState) (uid req : Nat)
    (target requester : User)
    (htgt : s.users.find? (fun u => decide (u.id = uid)) = some target)
    (hreq : s.users.find? (fun u => decide (u.id = req)) = some requester)
    (hrole : requester.role = Role.ADMIN)
    (hne : target.id ≠ req)
    (hlast : ¬(target.role = Role.ADMIN ∧
      (s.users.filter (fun u => decide (u.role = Role.ADMIN))).length ≤ 1)) :
    (delete_user s uid req).1 = 200 ∧
    (∀ u, u ∈ (delete_user s uid req).2.users ↔ u ∈ s.users ∧ u.id ≠ uid) ∧
    (∀ e, e ∈ (delete_user s uid req).2.time_entries ↔
      e ∈ s.time_entries ∧ e.userId ≠ uid) ∧
    (∀ n, n ∈ (delete_user s uid req).2.notes ↔ n ∈ s.notes ∧
      ¬((∃ e ∈ s.time_entries, e.userId = uid ∧ n.id ∈ e.editNotes) ∨
        n.id ∈ target.suspension_notes)) := by
  have had : (!decide (requester.role = Role.ADMIN)) = false := by simp [hrole]
  have hself : decide (target.id = req) = false := decide_eq_false hne
  have hla : (decide (target.role = Role.ADMIN) &&
      decide ((s.users.filter
        (fun u => decide (u.role = Role.ADMIN))).length ≤ 1)) = false := by
    by_contra hc
    rw [Bool.not_eq_false, Bool.and_eq_true, decide_eq_true_eq,
      decide_eq_true_eq] at hc
    exact hlast hc
  refine ⟨?_, ?_, ?_, ?_⟩
  · simp only [delete_user, htgt, hreq, had, Bool.false_eq_true, if_false,
      hself, hla]
  · intro u
    simp only [delete_user, htgt, hreq, had, Bool.false_eq_true, if_false,
      hself, hla]
    simp [List.mem_filter]
  · intro e
    simp only [delete_user, htgt, hreq, had, Bool.false_eq_true, if_false,
      hself, hla]
    simp [List.mem_filter]
  · intro n
    simp only [delete_user, htgt, hreq, had, Bool.false_eq_true, if_false,
      hself, hla]
    simp only [List.mem_filter, Bool.not_eq_true', List.contains,
      List.elem_eq_mem, List.mem_append, List.mem_flatten, List.mem_map,
      decide_eq_false_iff_not, decide_eq_true_eq]
    constructor
    · rintro ⟨hn, hno⟩
      refine ⟨hn, ?_⟩
      rintro (⟨e, he, heu, hni⟩ | hni)
      · exact hno (Or.inl ⟨e.editNotes, ⟨e, ⟨he, heu⟩, rfl⟩, hni⟩)
      · exact hno (Or.inr hni)
    · rintro ⟨hn, hno⟩
      refine ⟨hn, ?_⟩
      rintro (⟨l, ⟨e, ⟨he, heu⟩, hl⟩, hni⟩ | hni)
      · exact hno (Or.inl ⟨e, he, heu, hl ▸ hni⟩)
      · exact hno (Or.inr hni)

/-- `uWorker` with one suspension note (id 30) attached. -/
def uWorkerSN : User := ⟨1, "Worker One", Role.worker, false, [30]⟩

/-- Closed entry of user 1 carrying edit note 31. -/
def eDel1 : TimeEntry := ⟨21, 1, 0, some 3600, 1, 0, false, 3600, [31]⟩

/-- Closed entry of user 5 carrying edit note 32. -/
def eKeep : TimeEntry := ⟨22, 5, 0, some 3600, 1, 0, false, 3600, [32]⟩

def nSusp30 : Note :=
  ⟨30, 1, EntityType.user_suspension, 10, "Admin",
   NoteText.suspensionChange "Suspended" "Admin" "r" false Role.worker true
     Role.worker⟩

def nEdit31 : Note :=
  ⟨31, 21, EntityType.time_entry, 11, "Admin",
   NoteText.entryChange "Edited" "Admin" "r" 0 (some 3600) 1 0 (some 3600)
     1⟩

def nEdit32 : Note :=
  ⟨32, 22, EntityType.time_entry, 12, "Admin",
   NoteText.entryChange "Edited" "Admin" "r" 0 (some 3600) 1 0 (some 3600)
     1⟩

def nOther33 : Note :=
  ⟨33, 99, EntityType.time_entry, 13, "Admin",
   NoteText.entryChange "Edited" "Admin" "r" 0 (some 3600) 1 0 (some 3600)
     1⟩

def stDel : AppState :=
  ⟨[uWorkerSN, uKeeper, uAdmin], [eDel1, eKeep],
   [nSusp30, nEdit31, nEdit32, nOther33],
   [uWorkerSN, uKeeper, uAdmin], [eDel1, eKeep],
   [nSusp30, nEdit31, nEdit32, nOther33]⟩

/-- C8 witness: deleting user 1 from `stDel` by admin 9 succeeds, and the
membership characterizations hold at the deleted user, its entry and its
edit note. -/
theorem delete_user_cascades_exactly_witness :
    (delete_user stDel 1 9).1 = 200 ∧
    (uWorkerSN ∈ (delete_user stDel 1 9).2.users ↔
      uWorkerSN ∈ stDel.users ∧ uWorkerSN.id ≠ 1) ∧
    (eDel1 ∈ (delete_user stDel 1 9).2.time_entries ↔
      eDel1 ∈ stDel.time_entries ∧ eDel1.userId ≠ 1) ∧
    (nEdit31 ∈ (delete_user stDel 1 9).2.notes ↔ nEdit31 ∈ stDel.notes ∧
      ¬((∃ e ∈ stDel.time_entries, e.userId = 1 ∧ nEdit31.id ∈ e.editNotes)
        ∨ nEdit31.id ∈ uWorkerSN.suspension_notes)) :=
  ⟨(delete_user_cascades_exactly stDel 1 9 uWorkerSN uAdmin (by decide)
      (by decide) (by decide) (by decide) (by decide)).1,
   (delete_user_cascades_exactly stDel 1 9 uWorkerSN uAdmin (by decide)
      (by decide) (by decide) (by decide) (by decide)).2.1 uWorkerSN,
   (delete_user_cascades_exactly stDel 1 9 uWorkerSN uAdmin (by decide)
      (by decide) (by decide) (by decide) (by decide)).2.2.1 eDel1,
   (delete_user_cascades_exactly stDel 1 9 uWorkerSN uAdmin (by decide)
      (by decide) (by decide) (by decide) (by decide)).2.2.2 nEdit31⟩

theorem rhe_intCast (k : ℤ) : rhe (k : ℚ) = k := by
  rw [rhe, ratFloor_eq_floor, Int.floor_intCast]
  norm_num

theorem round2_sum_round2 (a b : ℚ) :
    round2 (round2 a + round2 b) = round2 a + round2 b := by
  unfold round2
  have h : ((rhe (a * 100) : ℚ) / 100 + (rhe (b * 100) : ℚ) / 100) * 100
      = ((rhe (a * 100) + rhe (b * 100) : ℤ) : ℚ) := by
    push_cast
    ring
  rw [h, rhe_intCast]
  push_cast
  ring


/-- C4.  Clocking in and out twice on the same calendar day, starting from
a state where the user has no active entry and no entry dated that day:
all four calls succeed, afterwards exactly one entry exists for that user
and date — closed at the second clock-out time `t4`, with `totalHours`
equal to the sum of the two sessions' per-session-rounded durations — and
the second (active) entry has been deleted. -/
theorem clock_twice_same_day_consolidates (s : AppState) (uid : Nat)
    (t1 t2 t3 t4 : ℚ) (id1 id2 : Nat) (u : User)
    (hu : s.users.find? (fun w => decide (w.id = uid)) = some u)
    (hsusp : u.is_suspended = false)
    (hact : ∀ e ∈ s.time_entries, e.userId = uid → e.logoutTime ≠ none)
    (hday : ∀ e ∈ s.time_entries, e.userId = uid → e.date ≠ dayOf t1)
    (hd2 : dayOf t2 = dayOf t1) (hd3 : dayOf t3 = dayOf t1)
    (hd4 : dayOf t4 = dayOf t1) :
    (clock_in s uid t1 id1).1 = 200 ∧
    (clock_out (clock_in s uid t1 id1).2 uid t2).1 = 200 ∧
    (clock_in (clock_out (clock_in s uid t1 id1).2 uid t2).2 uid t3
      id2).1 = 200 ∧
    (clock_out (clock_in (clock_out (clock_in s uid t1 id1).2 uid t2).2
      uid t3 id2).2 uid t4).1 = 200 ∧
    ((clock_out (clock_in (clock_out (clock_in s uid t1 id1).2 uid t2).2
      uid t3 id2).2 uid t4).2.time_entries.filter
        (fun e => decide (e.userId = uid) && decide (e.date = dayOf t1)))
      = [⟨id1, uid, t1, some t4,
          round2 ((t2 - t1) / 3600) + round2 ((t4 - t3) / 3600),
          dayOf t1, false, t4, []⟩] ∧
    (⟨id2, uid, t3, none, 0, dayOf t3, false, t3, []⟩ : TimeEntry) ∉
      (clock_out (clock_in (clock_out (clock_in s uid t1 id1).2 uid t2).2
        uid t3 id2).2 uid t4).2.time_entries := by
  have hpA : s.time_entries.find?
      (fun e => decide (e.userId = uid) && e.logoutTime.isNone) = none := by
    rw [List.find?_eq_none]
    intro e he
    simp only [Bool.and_eq_true, decide_eq_true_eq,
      Option.isNone_iff_eq_none, not_and]
    intro h1 h2
    exact hact e he h1 h2
  have hpT2 : s.time_entries.find? (fun e =>
      decide (e.userId = uid) && decide (e.date = dayOf t2) &&
        e.logoutTime.isSome && decide (dayOf e.loginTime = dayOf t2))
      = none := by
    rw [List.find?_eq_none]
    intro e he
    simp only [hd2, Bool.and_eq_true, decide_eq_true_eq]
    rintro ⟨⟨⟨h1, h2⟩, _⟩, _⟩
    exact hday e he h1 h2
  have hpT4 : s.time_entries.find? (fun e =>
      decide (e.userId = uid) && decide (e.date = dayOf t4) &&
        e.logoutTime.isSome && decide (dayOf e.loginTime = dayOf t4))
      = none := by
    rw [List.find?_eq_none]
    intro e he
    simp only [hd4, Bool.and_eq_true, decide_eq_true_eq]
    rintro ⟨⟨⟨h1, h2⟩, _⟩, _⟩
    exact hday e he h1 h2
  have hA : clock_in s uid t1 id1 =
      (200, { s with
        time_entries := s.time_entries ++
          [⟨id1, uid, t1, none, 0, dayOf t1, false, t1, []⟩],
        saved_time_entries := s.time_entries ++
          [⟨id1, uid, t1, none, 0, dayOf t1, false, t1, []⟩] }) := by
    simp only [clock_in, hu, hsusp, Bool.false_eq_true, if_false, hpA]
  have hfA2 : (s.time_entries ++
      [(⟨id1, uid, t1, none, 0, dayOf t1, false, t1, []⟩ : TimeEntry)]).find?
      (fun e => decide (e.userId = uid) && e.logoutTime.isNone)
      = some ⟨id1, uid, t1, none, 0, dayOf t1, false, t1, []⟩ := by
    rw [find?_append_of_none hpA]
    exact List.find?_cons_of_pos _ (by simp)
  have hfT2 : (s.time_entries ++
      [(⟨id1, uid, t1, none, 0, dayOf t1, false, t1, []⟩ : TimeEntry)]).find?
      (fun e => decide (e.userId = uid) && decide (e.date = dayOf t2) &&
        e.logoutTime.isSome && decide (dayOf e.loginTime = dayOf t2))
      = none := by
    rw [find?_append_of_none hpT2]
    rw [List.find?_cons_of_neg _ (by simp)]
    rfl
  have hB : clock_out { s with
        time_entries := s.time_entries ++
          [⟨id1, uid, t1, none, 0, dayOf t1, false, t1, []⟩],
        saved_time_entries := s.time_entries ++
          [⟨id1, uid, t1, none, 0, dayOf t1, false, t1, []⟩] } uid t2 =
      (200, { s with
        time_entries := s.time_entries ++
          [⟨id1, uid, t1, some t2, round2 ((t2 - t1) / 3600), dayOf t1,
            false, t2, []⟩],
        saved_time_entries := s.time_entries ++
          [⟨id1, uid, t1, some t2, round2 ((t2 - t1) / 3600), dayOf t1,
            false, t2, []⟩] }) := by
    simp only [clock_out, hu, hfA2, hfT2,
      updateFirst_append_of_none _ hpA]
    simp [updateFirst]
  have hfA3 : (s.time_entries ++
      [(⟨id1, uid, t1, some t2, round2 ((t2 - t1) / 3600), dayOf t1, false,
        t2, []⟩ : TimeEntry)]).find?
      (fun e => decide (e.userId = uid) && e.logoutTime.isNone) = none := by
    rw [find?_append_of_none hpA]
    rw [List.find?_cons_of_neg _ (by simp)]
    rfl
  have hC : clock_in { s with
        time_entries := s.time_entries ++
          [⟨id1, uid, t1, some t2, round2 ((t2 - t1) / 3600), dayOf t1,
            false, t2, []⟩],
        saved_time_entries := s.time_entries ++
          [⟨id1, uid, t1, some t2, round2 ((t2 - t1) / 3600), dayOf t1,
            false, t2, []⟩] } uid t3 id2 =
      (200, { s with
        time_entries := s.time_entries ++
          [⟨id1, uid, t1, some t2, round2 ((t2 - t1) / 3600), dayOf t1,
            false, t2, []⟩,
           ⟨id2, uid, t3, none, 0, dayOf t3, false, t3, []⟩],
        saved_time_entries := s.time_entries ++
          [⟨id1, uid, t1, some t2, round2 ((t2 - t1) / 3600), dayOf t1,
            false, t2, []⟩,
           ⟨id2, uid, t3, none, 0, dayOf t3, false, t3, []⟩] }) := by
    simp only [clock_in, hu, hsusp, Bool.false_eq_true, if_false, hfA3]
    simp [List.append_assoc]
  have hfA4 : (s.time_entries ++
      [(⟨id1, uid, t1, some t2, round2 ((t2 - t1) / 3600), dayOf t1, false,
        t2, []⟩ : TimeEntry),
       (⟨id2, uid, t3, none, 0, dayOf t3, false, t3, []⟩ : TimeEntry)]).find?
      (fun e => decide (e.userId = uid) && e.logoutTime.isNone)
      = some ⟨id2, uid, t3, none, 0, dayOf t3, false, t3, []⟩ := by
    rw [find?_append_of_none hpA]
    rw [List.find?_cons_of_neg _ (by simp)]
    exact List.find?_cons_of_pos _ (by simp)
  have hfT4 : (s.time_entries ++
      [(⟨id1, uid, t1, some t2, round2 ((t2 - t1) / 3600), dayOf t1, false,
        t2, []⟩ : TimeEntry),
       (⟨id2, uid, t3, none, 0, dayOf t3, false, t3, []⟩ : TimeEntry)]).find?
      (fun e => decide (e.userId = uid) && decide (e.date = dayOf t4) &&
        e.logoutTime.isSome && decide (dayOf e.loginTime = dayOf t4))
      = some ⟨id1, uid, t1, some t2, round2 ((t2 - t1) / 3600), dayOf t1,
        false, t2, []⟩ := by
    rw [find?_append_of_none hpT4]
    exact List.find?_cons_of_pos _ (by simp [hd4])
  have he2notin : (⟨id2, uid, t3, none, 0, dayOf t3, false, t3, []⟩ :
      TimeEntry) ∉ s.time_entries := fun hmem => (hact _ hmem rfl) rfl
  have hD : clock_out { s with
        time_entries := s.time_entries ++
          [⟨id1, uid, t1, some t2, round2 ((t2 - t1) / 3600), dayOf t1,
            false, t2, []⟩,
           ⟨id2, uid, t3, none, 0, dayOf t3, false, t3, []⟩],
        saved_time_entries := s.time_entries ++
          [⟨id1, uid, t1, some t2, round2 ((t2 - t1) / 3600), dayOf t1,
            false, t2, []⟩,
           ⟨id2, uid, t3, none, 0, dayOf t3, false, t3, []⟩] } uid t4 =
      (200, { s with
        time_entries := s.time_entries ++
          [⟨id1, uid, t1, some t4,
            round2 (round2 ((t2 - t1) / 3600) + round2 ((t4 - t3) / 3600)),
            dayOf t1, false, t4, []⟩],
        saved_time_entries := s.time_entries ++
          [⟨id1, uid, t1, some t4,
            round2 (round2 ((t2 - t1) / 3600) + round2 ((t4 - t3) / 3600)),
            dayOf t1, false, t4, []⟩] }) := by
    simp only [clock_out, hu, hfA4, hfT4,
      updateFirst_append_of_none _ hpT4]
    simp only [updateFirst, Bool.and_eq_true, decide_eq_true_eq,
      Option.isSome_some, Bool.and_true, and_true, hd4]
    rw [if_pos (by simp [hd4])]
    rw [List.erase_append_right _ he2notin]
    rw [List.erase_cons_tail (by simp)]
    rw [List.erase_cons_head]
  have hfilter : s.time_entries.filter
      (fun e => decide (e.userId = uid) && decide (e.date = dayOf t1))
      = [] := by
    rw [List.filter_eq_nil_iff]
    intro e he
    simp only [Bool.and_eq_true, decide_eq_true_eq, not_and]
    intro h1
    exact hday e he h1
  simp only [hA, hB, hC, hD]
  refine ⟨trivial, trivial, trivial, trivial, ?_, ?_⟩
  · rw [round2_sum_round2]
    rw [List.filter_append, hfilter]
    simp
  · simp only [List.mem_append, List.mem_singleton, not_or]
    refine ⟨he2notin, ?_⟩
    simp [TimeEntry.mk.injEq]

def stClean : AppState :=
  ⟨[uWorker, uAdmin], [], [], [uWorker, uAdmin], [], []⟩

/-- C4 witness: worker 1 works 09:00-17:00 and 18:00-19:30 on day 0; the
four calls succeed and consolidate into one closed 9.5-hour entry. -/
theorem clock_twice_same_day_consolidates_witness :
    (stClean.users.find? (fun w => decide (w.id = 1)) = some uWorker) ∧
    uWorker.is_suspended = false ∧
    dayOf 61200 = dayOf 32400 ∧ dayOf 64800 = dayOf 32400 ∧
    dayOf 70200 = dayOf 32400 ∧
    ((clock_in stClean 1 32400 11).1 = 200 ∧
     (clock_out (clock_in stClean 1 32400 11).2 1 61200).1 = 200 ∧
     (clock_in (clock_out (clock_in stClean 1 32400 11).2 1 61200).2 1
       64800 12).1 = 200 ∧
     (clock_out (clock_in (clock_out (clock_in stClean 1 32400 11).2 1
       61200).2 1 64800 12).2 1 70200).1 = 200 ∧
     ((clock_out (clock_in (clock_out (clock_in stClean 1 32400 11).2 1
       61200).2 1 64800 12).2 1 70200).2.time_entries.filter
        (fun e => decide (e.userId = 1) && decide (e.date = dayOf 32400)))
       = [⟨11, 1, 32400, some 70200,
           round2 ((61200 - 32400) / 3600) + round2 ((70200 - 64800) / 3600),
           dayOf 32400, false, 70200, []⟩] ∧
     (⟨12, 1, 64800, none, 0, dayOf 64800, false, 64800, []⟩ : TimeEntry) ∉
       (clock_out (clock_in (clock_out (clock_in stClean 1 32400 11).2 1
         61200).2 1 64800 12).2 1 70200).2.time_entries) :=
  ⟨by decide, by decide, by decide, by decide, by decide,
   clock_twice_same_day_consolidates stClean 1 32400 61200 64800 70200 11
     12 uWorker (by decide) (by decide) (by decide) (by decide) (by decide)
     (by decide) (by decide)⟩
